import Mathlib

/-!
Verification of the bond valuation engine of this repository.

The calculation module (calculateBondPrice, generateCashFlows,
analyzeBondType, calculateBondMetrics) is embedded over the exact rationals;
the reactive state store (setState) and the debounced input pipeline
(setupInputListeners / updateCalculations) are embedded as explicit
state-passing functions that also return the trace of state snapshots with
which subscribers are notified.
-/

namespace Bond

/-- Model of JavaScript Math.pow over exact rationals.  Math.pow with an
integer-valued exponent is the exact integer power; a non-integer exponent
denotes a real-valued power with no exact rational counterpart, so the
embedding returns the junk value 0 on that branch (no settled theorem
depends on the value of that branch). -/
def jsPow (b e : ℚ) : ℚ := if e.den = 1 then b ^ e.num else 0

structure BondParameters where
  faceValue : ℚ
  couponRate : ℚ
  ytm : ℚ
  years : ℚ
  frequency : ℚ
deriving DecidableEq

structure PriceComponents where
  price : ℚ
  pvCoupons : ℚ
  pvFaceValue : ℚ
  periodicCoupon : ℚ
  periodicYield : ℚ
  periods : ℚ
deriving DecidableEq

/-- Translation of calculateBondPrice (src/unnamed/part_003, lines 16-42).
The JS loop `for (let t = 1; t <= periods; t++)` iterates over the integers
t with 1 ≤ t ≤ periods, i.e. 1..⌊periods⌋ (no iterations when periods < 1),
accumulating pvCoupons. -/
def calculateBondPrice (p : BondParameters) : PriceComponents :=
  let periods := p.years * p.frequency
  let periodicCouponRate := p.couponRate / 100 / p.frequency
  let periodicYield := p.ytm / 100 / p.frequency
  let periodicCoupon := p.faceValue * periodicCouponRate
  let pvCoupons := ((List.range ⌊periods⌋.toNat).map
    (fun t => periodicCoupon / (1 + periodicYield) ^ (t + 1))).sum
  let pvFaceValue := p.faceValue / jsPow (1 + periodicYield) periods
  let price := pvCoupons + pvFaceValue
  ⟨price, pvCoupons, pvFaceValue, periodicCoupon, periodicYield, periods⟩

structure CashFlow where
  period : ℚ
  yearLabel : ℚ
  couponPayment : ℚ
  principalPayment : ℚ
  totalCashFlow : ℚ
deriving DecidableEq

/-- Translation of generateCashFlows (src/unnamed/part_003, lines 49-78):
an initial purchase entry at period 0, then one entry per loop iteration
t = 1..⌊periods⌋, with the face value redeemed exactly when the loop counter
t is equal (as a number) to periods. -/
def generateCashFlows (faceValue frequency years periodicCoupon bondPrice : ℚ) :
    List CashFlow :=
  let periods := years * frequency
  let initial : CashFlow := ⟨0, 0, 0, -bondPrice, -bondPrice⟩
  let flowAt : ℕ → CashFlow := fun t =>
    let couponPayment := periodicCoupon
    let principalPayment := if (t : ℚ) = periods then faceValue else 0
    ⟨(t : ℚ), (t : ℚ) / frequency, couponPayment, principalPayment,
      couponPayment + principalPayment⟩
  initial :: (List.range ⌊periods⌋.toNat).map (fun i => flowAt (i + 1))

inductive BondType where
  | par
  | premium
  | discount
deriving DecidableEq

structure BondClassification where
  type : BondType
  description : String
  difference : ℚ
deriving DecidableEq

/-- Translation of analyzeBondType (src/unnamed/part_003, lines 87-109),
with the default tolerance of the source of 0.01. -/
def analyzeBondType (bondPrice faceValue : ℚ) (tolerance : ℚ := 1 / 100) :
    BondClassification :=
  let difference := bondPrice - faceValue
  if |difference| < tolerance then ⟨.par, "Par bond", 0⟩
  else if difference > 0 then ⟨.premium, "Premium bond", difference⟩
  else ⟨.discount, "Discount bond", |difference|⟩

structure ValuationResult where
  bondPrice : ℚ
  pvCoupons : ℚ
  pvFaceValue : ℚ
  periodicCoupon : ℚ
  periodicYield : ℚ
  periods : ℚ
  cashFlows : List CashFlow
  bondType : BondClassification
deriving DecidableEq

/-- Translation of calculateBondMetrics (src/unnamed/part_003, lines 116-144):
price the bond, generate the schedule from the computed periodicCoupon and
price, classify with the default tolerance, and assemble the result. -/
def calculateBondMetrics (params : BondParameters) : ValuationResult :=
  let priceData := calculateBondPrice params
  let cashFlows := generateCashFlows params.faceValue params.frequency params.years
    priceData.periodicCoupon priceData.price
  let bondType := analyzeBondType priceData.price params.faceValue
  ⟨priceData.price, priceData.pvCoupons, priceData.pvFaceValue,
    priceData.periodicCoupon, priceData.periodicYield, priceData.periods,
    cashFlows, bondType⟩

/-- Error type named by the spec for an undefined discount factor. -/
inductive DomainError where
  | undefinedDiscountFactor
deriving DecidableEq

/-- calculateBondPrice with its error behaviour made explicit: the source
function contains no throw statement on any path, so the translation
returns Except.ok on every input. -/
def calculateBondPriceE (p : BondParameters) : Except DomainError PriceComponents :=
  Except.ok (calculateBondPrice p)

/-- calculateBondMetrics with error propagation made explicit: any error of
the pricing step would propagate (the source has no try/catch inside
calculateBondMetrics); the remaining steps contain no throw either. -/
def calculateBondMetricsE (params : BondParameters) :
    Except DomainError ValuationResult := do
  let priceData ← calculateBondPriceE params
  let cashFlows := generateCashFlows params.faceValue params.frequency params.years
    priceData.periodicCoupon priceData.price
  let bondType := analyzeBondType priceData.price params.faceValue
  Except.ok ⟨priceData.price, priceData.pvCoupons, priceData.pvFaceValue,
    priceData.periodicCoupon, priceData.periodicYield, priceData.periods,
    cashFlows, bondType⟩

/-- The reference classifier of the spec, stated from the words of the spec
(section 4.3): par when within tolerance with difference reported as 0,
premium with difference price − faceValue, discount with difference
faceValue − price. -/
def specClassify (bondPrice faceValue tolerance : ℚ) : BondClassification :=
  if |bondPrice - faceValue| < tolerance then ⟨.par, "Par bond", 0⟩
  else if bondPrice > faceValue then ⟨.premium, "Premium bond", bondPrice - faceValue⟩
  else ⟨.discount, "Discount bond", faceValue - bondPrice⟩

/-- The discounted cash-flow sum of the spec: the totalCashFlow of each entry times
(1 + periodicYield) to the power −period, summed over the schedule. -/
def scheduleNPV (periodicYield : ℚ) (flows : List CashFlow) : ℚ :=
  (flows.map (fun cf => cf.totalCashFlow * jsPow (1 + periodicYield) (-cf.period))).sum

/-- The three input fields wired up by setupInputListeners
(src/unnamed/part_000, lines 102-106). -/
inductive InputField where
  | couponRate
  | ytm
  | years
deriving DecidableEq

/-- Modelled from the spec: validateField lives in src/modules/validation.js,
which is not among the sources; section 6 gives the recognized fields and
constraints (couponRate ≥ 0, ytm any finite real, years > 0), each yielding
an error message or none. -/
def validateField (field : InputField) (value : ℚ) : Option String :=
  match field with
  | .couponRate => if value < 0 then some "Coupon rate must be at least 0" else none
  | .ytm => none
  | .years => if value ≤ 0 then some "Years must be greater than 0" else none

/-- The per-field error map of the state (state.js holds it as an object
keyed by field name). -/
structure ErrorMap where
  couponRate : Option String := none
  ytm : Option String := none
  years : Option String := none
deriving DecidableEq

/-- Modelled from the spec: hasErrors lives in src/modules/validation.js,
which is not among the sources; section 6 specifies an aggregate
`hasErrors(errorMap) -> boolean`, true when any field error is active. -/
def hasErrors (e : ErrorMap) : Bool :=
  e.couponRate.isSome || e.ytm.isSome || e.years.isSome

/-- The error-map update of the handler (src/unnamed/part_000, lines 121-126):
set the message of the field when validation failed, delete the key otherwise. -/
def setError (e : ErrorMap) (field : InputField) (err : Option String) : ErrorMap :=
  match field with
  | .couponRate => { e with couponRate := err }
  | .ytm => { e with ytm := err }
  | .years => { e with years := err }

/-- The observable state of src/modules/state.js (listeners are modelled
separately, as the argument of setState). -/
structure CalcState where
  faceValue : ℚ
  couponRate : ℚ
  ytm : ℚ
  years : ℚ
  frequency : ℚ
  errors : ErrorMap
  bondCalculations : Option ValuationResult
deriving DecidableEq

/-- A partial state, as passed to setState; none means the field is absent
from the update object. -/
structure StateUpdate where
  faceValue : Option ℚ := none
  couponRate : Option ℚ := none
  ytm : Option ℚ := none
  years : Option ℚ := none
  frequency : Option ℚ := none
  errors : Option ErrorMap := none
  bondCalculations : Option (Option ValuationResult) := none

/-- The Object.assign merge performed by setState. -/
def mergeState (s : CalcState) (u : StateUpdate) : CalcState :=
  ⟨u.faceValue.getD s.faceValue, u.couponRate.getD s.couponRate,
    u.ytm.getD s.ytm, u.years.getD s.years, u.frequency.getD s.frequency,
    u.errors.getD s.errors, u.bondCalculations.getD s.bondCalculations⟩

/-- Translation of setState (src/modules/state.js, lines 31-34): merge the
partial update into the state, then call every listener, in order, with the
merged state.  Returns the new state and the list of listener results. -/
def setState {α : Type} (s : CalcState) (u : StateUpdate)
    (listeners : List (CalcState → α)) : CalcState × List α :=
  let merged := mergeState s u
  (merged, listeners.map (fun fn => fn merged))

/-- The BondParameters snapshot read from the state
(src/unnamed/part_000, line 151 and lines 161-167). -/
def stateParams (s : CalcState) : BondParameters :=
  ⟨s.faceValue, s.couponRate, s.ytm, s.years, s.frequency⟩

/-- Translation of updateCalculations (src/unnamed/part_000, lines 150-176).
Returns the new state together with the snapshots handed to subscribers (one
per setState call).  The catch branch is unreachable: the embedded
calculation functions are total.  -/
def updateCalculations (s : CalcState) : CalcState × List CalcState :=
  if hasErrors s.errors then
    let s1 := { s with bondCalculations := none }
    (s1, [s1])
  else
    let s1 := { s with bondCalculations := some (calculateBondMetrics (stateParams s)) }
    (s1, [s1])

/-- The first setState call of the debounced handler
(src/unnamed/part_000, lines 128-131): store the new field value together
with the new error map. -/
def fieldUpdateState (s : CalcState) (field : InputField) (value : ℚ)
    (errors : ErrorMap) : CalcState :=
  match field with
  | .couponRate => { s with couponRate := value, errors := errors }
  | .ytm => { s with ytm := value, errors := errors }
  | .years => { s with years := value, errors := errors }

/-- Translation of the debounced input handler of setupInputListeners
(src/unnamed/part_000, lines 113-140): validate the field, store value and
error map (first setState), then recompute only when no error is active.
Returns the final state and the full notification trace. -/
def debouncedFieldUpdate (s : CalcState) (field : InputField) (value : ℚ) :
    CalcState × List CalcState :=
  let error := validateField field value
  let errors := setError s.errors field error
  let s1 := fieldUpdateState s field value errors
  if hasErrors errors then
    (s1, [s1])
  else
    let r := updateCalculations s1
    (r.1, s1 :: r.2)

/-- Concrete parameters for the pipeline scenarios: faceValue 100,
couponRate 0, ytm 0, years 1, frequency 1 (a single period). -/
def demoParams : BondParameters := ⟨100, 0, 0, 1, 1⟩

/-- A state as left behind by a successful recompute on demoParams: no
validation errors and the stored result computed from the current inputs. -/
def demoState : CalcState :=
  ⟨100, 0, 0, 1, 1, {}, some (calculateBondMetrics demoParams)⟩

/-! ### Helper lemmas -/

theorem jsPow_natCast (b : ℚ) (n : ℕ) : jsPow b (n : ℚ) = b ^ n := by
  simp [jsPow, Rat.den_natCast, Rat.num_natCast]

theorem jsPow_intCast (b : ℚ) (k : ℤ) : jsPow b (k : ℚ) = b ^ k := by
  simp [jsPow, Rat.intCast_den, Rat.intCast_num]

theorem jsPow_neg_natCast (b : ℚ) (n : ℕ) : jsPow b (-(n : ℚ)) = (b ^ n)⁻¹ := by
  rw [show (-(n : ℚ)) = ((-(n : ℤ) : ℤ) : ℚ) by push_cast; ring, jsPow_intCast,
    zpow_neg, zpow_natCast]

theorem jsPow_zero (b : ℚ) : jsPow b 0 = 1 := by
  rw [show (0 : ℚ) = ((0 : ℕ) : ℚ) by norm_num, jsPow_natCast, pow_zero]

theorem listRangeMapSum (n : ℕ) (f : ℕ → ℚ) :
    ((List.range n).map f).sum = ∑ t in Finset.range n, f t := by
  induction n with
  | zero => simp
  | succ n ih =>
    rw [List.range_succ, List.map_append, List.sum_append, Finset.sum_range_succ, ih]
    simp

theorem sum_Icc_shift (n : ℕ) (f : ℕ → ℚ) :
    ∑ t in Finset.Icc 1 n, f t = ∑ i in Finset.range n, f (i + 1) := by
  rw [← Nat.Ico_succ_right, Finset.sum_Ico_eq_sum_range]
  simp [add_comm]

/-- Annuity identity: y · Σ_{t=1..n} v^t + v^n = 1 for v = (1+y)⁻¹. -/
theorem annuity_identity (y : ℚ) (h : 1 + y ≠ 0) (n : ℕ) :
    y * (∑ t in Finset.range n, ((1 + y)⁻¹) ^ (t + 1)) + ((1 + y)⁻¹) ^ n = 1 := by
  induction n with
  | zero => simp
  | succ n ih =>
    rw [Finset.sum_range_succ, pow_succ]
    have key : (1 + y) * (1 + y)⁻¹ = 1 := mul_inv_cancel₀ h
    linear_combination ih + ((1 + y)⁻¹) ^ n * key

/-- Unfolded form of the pvCoupons accumulation of calculateBondPrice. -/
theorem pvCoupons_def (p : BondParameters) :
    (calculateBondPrice p).pvCoupons =
      ((List.range ⌊p.years * p.frequency⌋.toNat).map
        (fun t => (p.faceValue * (p.couponRate / 100 / p.frequency)) /
          (1 + p.ytm / 100 / p.frequency) ^ (t + 1))).sum := rfl

/-- Unfolded form of the pvFaceValue component of calculateBondPrice. -/
theorem pvFaceValue_def (p : BondParameters) :
    (calculateBondPrice p).pvFaceValue =
      p.faceValue / jsPow (1 + p.ytm / 100 / p.frequency) (p.years * p.frequency) := rfl

/-- The price is assembled as pvCoupons + pvFaceValue. -/
theorem price_def (p : BondParameters) :
    (calculateBondPrice p).price =
      (calculateBondPrice p).pvCoupons + (calculateBondPrice p).pvFaceValue := rfl

theorem analyzeBondType_eq_specClassify (b F t : ℚ) :
    analyzeBondType b F t = specClassify b F t := by
  by_cases h1 : |b - F| < t
  · simp [analyzeBondType, specClassify, h1]
  · by_cases h3 : b > F
    · have h2 : b - F > 0 := by linarith
      simp [analyzeBondType, specClassify, h1, h3, h2]
    · have h2 : ¬(b - F > 0) := fun h => h3 (by linarith)
      have h4 : b - F ≤ 0 := le_of_not_lt h2
      simp [analyzeBondType, specClassify, h1, h3, h2, abs_of_nonpos h4, neg_sub]

/-- Closed form of the priced loop plus redemption: the coupon annuity and
discounted face value combine to (coupon − face·yield)·annuity + face. -/
theorem price_core (F cr y : ℚ) (n : ℕ) (h0 : 1 + y ≠ 0) :
    ((List.range n).map (fun t => (F * cr) / (1 + y) ^ (t + 1))).sum
        + F / (1 + y) ^ n
      = (F * cr - F * y) * (∑ t in Finset.range n, ((1 + y)⁻¹) ^ (t + 1)) + F := by
  rw [listRangeMapSum]
  have hann := annuity_identity y h0 n
  have h1 : ∀ t ∈ Finset.range n,
      (F * cr) / (1 + y) ^ (t + 1) = (F * cr) * ((1 + y)⁻¹) ^ (t + 1) := by
    intro t _; rw [div_eq_mul_inv, inv_pow]
  rw [Finset.sum_congr rfl h1, ← Finset.mul_sum, div_eq_mul_inv, ← inv_pow]
  linear_combination F * hann

/-- For an integral number of periods and a nonzero discount factor the
computed price decomposes as (periodic coupon − face·periodic yield) times
the annuity factor, plus the face value. -/
theorem price_decomposition (p : BondParameters) (n : ℕ)
    (hn : p.years * p.frequency = (n : ℚ))
    (h0 : 1 + p.ytm / 100 / p.frequency ≠ 0) :
    (calculateBondPrice p).price
      = (p.faceValue * (p.couponRate / 100 / p.frequency)
          - p.faceValue * (p.ytm / 100 / p.frequency)) *
          (∑ t in Finset.range n, ((1 + p.ytm / 100 / p.frequency)⁻¹) ^ (t + 1))
        + p.faceValue := by
  have hfloor : ⌊p.years * p.frequency⌋.toNat = n := by
    rw [hn, Int.floor_natCast, Int.toNat_natCast]
  rw [price_def, pvCoupons_def, pvFaceValue_def, hfloor, hn, jsPow_natCast]
  exact price_core p.faceValue (p.couponRate / 100 / p.frequency)
    (p.ytm / 100 / p.frequency) n h0

/-! ### Claim theorems -/

/-- C1: for every BondParameters, calculateBondPrice returns components
satisfying the reference definition: periods = years × frequency,
periodicCoupon = faceValue × couponRate/100/frequency,
periodicYield = ytm/100/frequency, pvCoupons is the sum over the integer
periods t = 1..periods of periodicCoupon/(1+periodicYield)^t, pvFaceValue =
faceValue/(1+periodicYield)^periods, and price = pvCoupons + pvFaceValue. -/
theorem calculateBondPrice_matches_reference (p : BondParameters) :
    (calculateBondPrice p).periods = p.years * p.frequency ∧
    (calculateBondPrice p).periodicCoupon
        = p.faceValue * (p.couponRate / 100 / p.frequency) ∧
    (calculateBondPrice p).periodicYield = p.ytm / 100 / p.frequency ∧
    (calculateBondPrice p).pvCoupons
        = ∑ t in Finset.Icc 1 ⌊p.years * p.frequency⌋.toNat,
            (calculateBondPrice p).periodicCoupon /
              (1 + (calculateBondPrice p).periodicYield) ^ t ∧
    (calculateBondPrice p).pvFaceValue
        = p.faceValue /
            jsPow (1 + (calculateBondPrice p).periodicYield) (p.years * p.frequency) ∧
    (calculateBondPrice p).price
        = (calculateBondPrice p).pvCoupons + (calculateBondPrice p).pvFaceValue := by
  refine ⟨rfl, rfl, rfl, ?_, rfl, rfl⟩
  rw [pvCoupons_def, listRangeMapSum, sum_Icc_shift]
  rfl

/-- C5: analyzeBondType implements the decision rule of the spec (par within
tolerance with difference 0, premium with difference price − face, discount
with difference face − price), its reported difference is never negative,
and the four concrete classifications of the spec hold. -/
theorem analyzeBondType_matches_spec :
    (∀ bondPrice faceValue tolerance : ℚ,
      analyzeBondType bondPrice faceValue tolerance
          = specClassify bondPrice faceValue tolerance ∧
      0 ≤ (analyzeBondType bondPrice faceValue tolerance).difference) ∧
    analyzeBondType 100 100 = ⟨.par, "Par bond", 0⟩ ∧
    analyzeBondType (100 + 5 / 1000) 100 (1 / 100) = ⟨.par, "Par bond", 0⟩ ∧
    analyzeBondType 105 100 = ⟨.premium, "Premium bond", 5⟩ ∧
    analyzeBondType 95 100 = ⟨.discount, "Discount bond", 5⟩ := by
  refine ⟨fun b F t => ⟨analyzeBondType_eq_specClassify b F t, ?_⟩, ?_, ?_, ?_, ?_⟩
  · by_cases h1 : |b - F| < t
    · simp [analyzeBondType, h1]
    · by_cases h2 : b - F > 0
      · simp [analyzeBondType, h1, h2]; linarith
      · simp [analyzeBondType, h1, h2, abs_nonneg]
  · norm_num [analyzeBondType]
  · norm_num [analyzeBondType, abs_of_nonneg]
  · norm_num [analyzeBondType, abs_of_nonneg]
  · norm_num [analyzeBondType, abs_of_nonpos]

/-- C10: calculateBondMetrics classifies with the default
tolerance 0.01; the orchestrator passes no tolerance argument, so the
classification inside every ValuationResult uses the fixed 0.01 band. -/
theorem metrics_uses_default_tolerance (p : BondParameters) :
    (calculateBondMetrics p).bondType
        = analyzeBondType (calculateBondPrice p).price p.faceValue (1 / 100) ∧
    (calculateBondMetrics p).bondType
        = specClassify (calculateBondPrice p).price p.faceValue (1 / 100) :=
  ⟨rfl, analyzeBondType_eq_specClassify _ _ _⟩

/-- C4 counterexample: at faceValue 100, couponRate 5, ytm −100, years 5,
frequency 1 the periodic yield is exactly −1, yet the pricing function
returns a normal (ok) PriceComponents and calculateBondMetrics returns a
full (ok) ValuationResult — no DomainError is signalled, contrary to the
claim. -/
theorem pricing_no_error_at_yield_minus_one :
    (calculateBondPrice ⟨100, 5, -100, 5, 1⟩).periodicYield = -1 ∧
    calculateBondPriceE ⟨100, 5, -100, 5, 1⟩
        = Except.ok (calculateBondPrice ⟨100, 5, -100, 5, 1⟩) ∧
    (calculateBondMetricsE ⟨100, 5, -100, 5, 1⟩).isOk = true := by
  refine ⟨?_, rfl, rfl⟩
  show (-100 : ℚ) / 100 / 1 = -1
  norm_num

/-- C4 amended: the pricing function raises no error on any input — the
source contains no DomainError check, so even at periodicYield = −1 it
returns a normal PriceComponents (propagating the division-by-zero values
silently) and calculateBondMetrics returns a complete ValuationResult. -/
theorem pricing_and_metrics_never_error (p : BondParameters) :
    calculateBondPriceE p = Except.ok (calculateBondPrice p) ∧
    calculateBondMetricsE p = Except.ok (calculateBondMetrics p) :=
  ⟨rfl, rfl⟩

/-- C6 counterexample: faceValue 100 > 0, couponRate 0 ≥ 0, years 3/2 > 0,
frequency 2 ∈ {1,2,4,12} and couponRate (0) > ytm (−300), yet the computed
price is −800 < faceValue — the claimed premium inequality fails because the
claim puts no lower bound on ytm (here periodicYield = −3/2 < −1). -/
theorem premium_claim_fails_without_yield_bound :
    (0 : ℚ) < 100 ∧ (0 : ℚ) ≤ 0 ∧ (0 : ℚ) < 3 / 2 ∧
    ((2 : ℚ) = 1 ∨ (2 : ℚ) = 2 ∨ (2 : ℚ) = 4 ∨ (2 : ℚ) = 12) ∧
    (-300 : ℚ) < 0 ∧
    (calculateBondPrice ⟨100, 0, -300, 3 / 2, 2⟩).price < 100 := by
  refine ⟨by norm_num, le_refl 0, by norm_num, Or.inr (Or.inl rfl), by norm_num, ?_⟩
  have h0 : (1 : ℚ) + (-300) / 100 / 2 ≠ 0 := by norm_num
  have hd := price_decomposition ⟨100, 0, -300, 3 / 2, 2⟩ 3 (by norm_num) h0
  rw [hd]
  norm_num [Finset.sum_range_succ]

/-- C6 amended: for faceValue > 0, couponRate ≥ 0, years > 0, frequency in
{1,2,4,12}, with years × frequency a whole number of periods (a well-formed
bond per the data-model invariant) and periodicYield > −1: the price exceeds
the face value exactly when couponRate > ytm, is below it exactly when
couponRate < ytm, and equals it (exactly, hence within any tolerance) when
ytm = couponRate. -/
theorem price_vs_face (p : BondParameters) (n : ℕ)
    (hF : 0 < p.faceValue) (hc : 0 ≤ p.couponRate) (hyears : 0 < p.years)
    (hf : p.frequency = 1 ∨ p.frequency = 2 ∨ p.frequency = 4 ∨ p.frequency = 12)
    (hn : p.years * p.frequency = (n : ℚ))
    (hy : -1 < p.ytm / 100 / p.frequency) :
    (p.ytm < p.couponRate → p.faceValue < (calculateBondPrice p).price) ∧
    (p.couponRate < p.ytm → (calculateBondPrice p).price < p.faceValue) ∧
    (p.ytm = p.couponRate → (calculateBondPrice p).price = p.faceValue) := by
  have hfpos : (0 : ℚ) < p.frequency := by
    rcases hf with h | h | h | h <;> rw [h] <;> norm_num
  have h1y : (0 : ℚ) < 1 + p.ytm / 100 / p.frequency := by linarith
  have h0 : 1 + p.ytm / 100 / p.frequency ≠ 0 := ne_of_gt h1y
  have hnpos : 0 < n := by
    rcases Nat.eq_zero_or_pos n with h | h
    · exfalso
      rw [h] at hn
      push_cast at hn
      nlinarith [mul_pos hyears hfpos]
    · exact h
  have hA : 0 < ∑ t in Finset.range n, ((1 + p.ytm / 100 / p.frequency)⁻¹) ^ (t + 1) :=
    Finset.sum_pos (fun t _ => pow_pos (inv_pos.mpr h1y) _)
      (Finset.nonempty_range_iff.mpr (by omega))
  have hprice := price_decomposition p n hn h0
  have hdiff : p.faceValue * (p.couponRate / 100 / p.frequency)
        - p.faceValue * (p.ytm / 100 / p.frequency)
      = p.faceValue * (p.couponRate - p.ytm) / (100 * p.frequency) := by
    field_simp
    ring
  refine ⟨fun h => ?_, fun h => ?_, fun h => ?_⟩
  · have hpos : 0 < p.faceValue * (p.couponRate - p.ytm) / (100 * p.frequency) :=
      div_pos (mul_pos hF (by linarith)) (by positivity)
    rw [hprice, hdiff]
    nlinarith [mul_pos hpos hA]
  · have hneg : p.faceValue * (p.couponRate - p.ytm) / (100 * p.frequency) < 0 :=
      div_neg_of_neg_of_pos (mul_neg_of_pos_of_neg hF (by linarith)) (by positivity)
    rw [hprice, hdiff]
    nlinarith [mul_neg_of_neg_of_pos hneg hA]
  · rw [hprice, hdiff, h]
    ring

/-- C6 witness: at faceValue 100, couponRate 8, ytm 6, years 5, frequency 2
(10 whole periods, periodicYield 0.03 > −1) the premium branch applies and
the computed price exceeds the face value. -/
theorem price_vs_face_witness :
    (0 : ℚ) < 100 ∧ (100 : ℚ) < (calculateBondPrice ⟨100, 8, 6, 5, 2⟩).price :=
  ⟨by norm_num,
    (price_vs_face ⟨100, 8, 6, 5, 2⟩ 10 (by norm_num) (by norm_num) (by norm_num)
      (Or.inr (Or.inl rfl)) (by norm_num) (by norm_num)).1 (by norm_num)⟩

/-- The discounted sum of a generated schedule, in closed summation form,
for an integral number of periods. -/
theorem scheduleNPV_generateCashFlows (F f yrs c B y : ℚ) (n : ℕ)
    (hn : yrs * f = (n : ℚ)) :
    scheduleNPV y (generateCashFlows F f yrs c B)
      = -B + ∑ i in Finset.range n,
          (c + if i + 1 = n then F else 0) * ((1 + y) ^ (i + 1))⁻¹ := by
  simp only [scheduleNPV, generateCashFlows, hn, Int.floor_natCast, Int.toNat_natCast,
    List.map_cons, List.sum_cons, List.map_map]
  rw [listRangeMapSum]
  congr 1
  · simp [jsPow_zero]
  · refine Finset.sum_congr rfl fun i _ => ?_
    show (c + if ((i + 1 : ℕ) : ℚ) = ((n : ℕ) : ℚ) then F else 0)
        * jsPow (1 + y) (-((i + 1 : ℕ) : ℚ)) = _
    rw [jsPow_neg_natCast]
    simp only [Nat.cast_inj]

/-- C2: for every BondParameters with an integral positive number of
periods and periodicYield > −1, the schedule generated from the computed
price has an exactly zero net present value: the sum over all entries of
totalCashFlow discounted by (1 + periodicYield)^(−period) vanishes. -/
theorem schedule_npv_zero (p : BondParameters) (n : ℕ)
    (hn : p.years * p.frequency = (n : ℚ)) (hn1 : 1 ≤ n)
    (hy : -1 < p.ytm / 100 / p.frequency) :
    scheduleNPV (calculateBondPrice p).periodicYield
      (generateCashFlows p.faceValue p.frequency p.years
        (calculateBondPrice p).periodicCoupon (calculateBondPrice p).price) = 0 := by
  have hfloor : ⌊p.years * p.frequency⌋.toNat = n := by
    rw [hn, Int.floor_natCast, Int.toNat_natCast]
  have hP : (calculateBondPrice p).periodicYield = p.ytm / 100 / p.frequency := rfl
  have hC : (calculateBondPrice p).periodicCoupon
      = p.faceValue * (p.couponRate / 100 / p.frequency) := rfl
  have hprice : (calculateBondPrice p).price
      = (∑ i in Finset.range n, p.faceValue * (p.couponRate / 100 / p.frequency)
          * ((1 + p.ytm / 100 / p.frequency) ^ (i + 1))⁻¹)
        + p.faceValue * ((1 + p.ytm / 100 / p.frequency) ^ n)⁻¹ := by
    rw [price_def, pvCoupons_def, pvFaceValue_def, hfloor, hn, jsPow_natCast,
      listRangeMapSum]
    simp only [div_eq_mul_inv]
  have hind : (∑ i in Finset.range n, (if i + 1 = n then p.faceValue else 0)
        * ((1 + p.ytm / 100 / p.frequency) ^ (i + 1))⁻¹)
      = p.faceValue * ((1 + p.ytm / 100 / p.frequency) ^ n)⁻¹ := by
    rw [Finset.sum_eq_single (n - 1)]
    · rw [if_pos (by omega), Nat.sub_add_cancel hn1]
    · intro i hi hne
      have hilt : i < n := Finset.mem_range.mp hi
      rw [if_neg (by omega), zero_mul]
    · intro h
      exact absurd (Finset.mem_range.mpr (by omega)) h
  rw [hP, hC, scheduleNPV_generateCashFlows p.faceValue p.frequency p.years _ _ _ n hn]
  have hsplit : ∀ i ∈ Finset.range n,
      (p.faceValue * (p.couponRate / 100 / p.frequency)
          + if i + 1 = n then p.faceValue else 0)
        * ((1 + p.ytm / 100 / p.frequency) ^ (i + 1))⁻¹
      = p.faceValue * (p.couponRate / 100 / p.frequency)
          * ((1 + p.ytm / 100 / p.frequency) ^ (i + 1))⁻¹
        + (if i + 1 = n then p.faceValue else 0)
          * ((1 + p.ytm / 100 / p.frequency) ^ (i + 1))⁻¹ :=
    fun i _ => add_mul _ _ _
  rw [Finset.sum_congr rfl hsplit, Finset.sum_add_distrib, hind, hprice]
  ring

/-- C2 witness: the schedule of the 10-period semiannual bond with
faceValue 100, couponRate 6, ytm 6, years 5, frequency 2 has exactly zero
net present value at its periodic yield. -/
theorem schedule_npv_zero_witness :
    (5 : ℚ) * 2 = ((10 : ℕ) : ℚ) ∧ 1 ≤ 10 ∧ (-1 : ℚ) < 6 / 100 / 2 ∧
    scheduleNPV (calculateBondPrice ⟨100, 6, 6, 5, 2⟩).periodicYield
      (generateCashFlows 100 2 5
        (calculateBondPrice ⟨100, 6, 6, 5, 2⟩).periodicCoupon
        (calculateBondPrice ⟨100, 6, 6, 5, 2⟩).price) = 0 :=
  ⟨by norm_num, by norm_num, by norm_num,
    schedule_npv_zero ⟨100, 6, 6, 5, 2⟩ 10 (by norm_num) (by norm_num) (by norm_num)⟩

/-- C3: for an integral positive number of periods n = years × frequency
the schedule has n+1 entries; entry 0 is ⟨period 0, yearLabel 0, coupon 0,
principal −bondPrice⟩; interior entries 1..n−1 carry only the periodic
coupon; the final entry carries the coupon plus the full face value; and
every entry satisfies totalCashFlow = couponPayment + principalPayment and
yearLabel = period / frequency. -/
theorem generateCashFlows_schedule_shape (F f yrs c B : ℚ) (n : ℕ)
    (hn : yrs * f = (n : ℚ)) (hn1 : 1 ≤ n) :
    (generateCashFlows F f yrs c B).length = n + 1 ∧
    (generateCashFlows F f yrs c B)[0]? = some ⟨0, 0, 0, -B, -B⟩ ∧
    (∀ k : ℕ, 1 ≤ k → k < n →
      (generateCashFlows F f yrs c B)[k]? = some ⟨(k : ℚ), (k : ℚ) / f, c, 0, c⟩) ∧
    (generateCashFlows F f yrs c B)[n]? = some ⟨(n : ℚ), (n : ℚ) / f, c, F, c + F⟩ ∧
    ∀ cf ∈ generateCashFlows F f yrs c B,
      cf.totalCashFlow = cf.couponPayment + cf.principalPayment ∧
      cf.yearLabel = cf.period / f := by
  have hfloor : ⌊yrs * f⌋.toNat = n := by
    rw [hn, Int.floor_natCast, Int.toNat_natCast]
  refine ⟨?_, ?_, ?_, ?_, ?_⟩
  · simp [generateCashFlows, hfloor]
  · simp [generateCashFlows]
  · intro k hk1 hkn
    obtain ⟨j, rfl⟩ : ∃ j, k = j + 1 := ⟨k - 1, by omega⟩
    have hne : ((j : ℚ) + 1) ≠ yrs * f := by
      rw [hn]
      exact_mod_cast (show j + 1 ≠ n by omega)
    simp [generateCashFlows, hfloor, List.getElem?_map,
      List.getElem?_range (show j < n by omega), hne]
  · obtain ⟨m, rfl⟩ : ∃ m, n = m + 1 := ⟨n - 1, by omega⟩
    have heq : ((m : ℚ) + 1) = yrs * f := by
      rw [hn]
      push_cast
      ring
    simp [generateCashFlows, hfloor, List.getElem?_map,
      List.getElem?_range (show m < m + 1 by omega), heq]
  · intro cf hcf
    simp only [generateCashFlows, List.mem_cons, List.mem_map] at hcf
    rcases hcf with h | ⟨i, _, h⟩
    · rw [h]
      exact ⟨(zero_add _).symm, (zero_div f).symm⟩
    · rw [← h]
      exact ⟨rfl, rfl⟩

/-- C3 witness: at faceValue 100, frequency 2, years 1 (two periods),
periodicCoupon 3, bondPrice 97 the schedule shape holds; in particular its
length is 3. -/
theorem generateCashFlows_schedule_shape_witness :
    (1 : ℚ) * 2 = ((2 : ℕ) : ℚ) ∧ 1 ≤ 2 ∧
    (generateCashFlows 100 2 1 3 97).length = 2 + 1 :=
  ⟨by norm_num, by norm_num,
    (generateCashFlows_schedule_shape 100 2 1 3 97 2 (by norm_num) (by norm_num)).1⟩

/-- C9: when years × frequency is not an integer the schedule still has
⌊years × frequency⌋ + 1 entries, but no loop entry ever carries the
face-value redemption — every entry after the purchase entry has
principalPayment 0, because the loop counter (an integer) never equals the
non-integral periods value — and the periods field of calculateBondPrice is
the non-integral product itself. -/
theorem fractional_periods_schedule (p : BondParameters) (c B : ℚ)
    (hnotint : ¬ ∃ k : ℤ, p.years * p.frequency = (k : ℚ)) :
    (generateCashFlows p.faceValue p.frequency p.years c B).length
        = ⌊p.years * p.frequency⌋.toNat + 1 ∧
    (∀ cf ∈ (generateCashFlows p.faceValue p.frequency p.years c B).tail,
      cf.principalPayment = 0) ∧
    (calculateBondPrice p).periods = p.years * p.frequency := by
  refine ⟨by simp [generateCashFlows], ?_, rfl⟩
  intro cf hcf
  simp only [generateCashFlows, List.tail_cons, List.mem_map] at hcf
  obtain ⟨i, _, rfl⟩ := hcf
  have hne : ((i : ℚ) + 1) ≠ p.years * p.frequency := by
    intro h
    exact hnotint ⟨(i + 1 : ℕ), by rw [← h]; push_cast; ring⟩
  simp [hne]

/-- C9 witness: years 5/2, frequency 1 gives the non-integral periods value
5/2; the schedule has ⌊5/2⌋ + 1 = 3 entries and no entry after the purchase
entry repays any principal. -/
theorem fractional_periods_schedule_witness :
    (¬ ∃ k : ℤ, (5 / 2 : ℚ) * 1 = (k : ℚ)) ∧
    (generateCashFlows 100 1 (5 / 2) 3 97).length = ⌊(5 / 2 : ℚ) * 1⌋.toNat + 1 ∧
    ∀ cf ∈ (generateCashFlows 100 1 (5 / 2) 3 97).tail, cf.principalPayment = 0 := by
  have hnot : ¬ ∃ k : ℤ, (5 / 2 : ℚ) * 1 = (k : ℚ) := by
    rintro ⟨k, hk⟩
    have h2 : (k * 2 : ℤ) = 5 := by exact_mod_cast (by linarith : (k : ℚ) * 2 = 5)
    omega
  exact ⟨hnot, (fractional_periods_schedule ⟨100, 6, 6, 5 / 2, 1⟩ 3 97 hnot).1,
    (fractional_periods_schedule ⟨100, 6, 6, 5 / 2, 1⟩ 3 97 hnot).2.1⟩

/-- Price of the demo bond before the edit (coupon rate 0, yield 0, one
period): exactly the face value. -/
theorem demo_price_old : (calculateBondPrice ⟨100, 0, 0, 1, 1⟩).price = 100 := by
  rw [price_decomposition ⟨100, 0, 0, 1, 1⟩ 1 (by norm_num) (by norm_num)]
  norm_num

/-- Price of the demo bond after raising the coupon rate to 100 (yield 0,
one period): face value plus one coupon of 100. -/
theorem demo_price_new : (calculateBondPrice ⟨100, 100, 0, 1, 1⟩).price = 200 := by
  rw [price_decomposition ⟨100, 100, 0, 1, 1⟩ 1 (by norm_num) (by norm_num)]
  norm_num [Finset.sum_range_succ]

/-- The two metric results of the demo scenario differ (their bondPrice
fields are 100 and 200). -/
theorem demo_metrics_ne :
    calculateBondMetrics (⟨100, 100, 0, 1, 1⟩ : BondParameters)
      ≠ calculateBondMetrics demoParams := by
  intro h
  have h3 := congrArg ValuationResult.bondPrice h
  have hb1 : (calculateBondMetrics (⟨100, 100, 0, 1, 1⟩ : BondParameters)).bondPrice
      = (calculateBondPrice ⟨100, 100, 0, 1, 1⟩).price := rfl
  have hb2 : (calculateBondMetrics demoParams).bondPrice
      = (calculateBondPrice ⟨100, 0, 0, 1, 1⟩).price := rfl
  rw [hb1, hb2, demo_price_old, demo_price_new] at h3
  norm_num at h3

/-- C7: evaluating the input pipeline at a state holding a valid computed
result, with the invalid edit couponRate := −5: the resulting state has an
active validation error, yet its bondCalculations still holds the previous
(now stale) result instead of having been cleared to none — the handler
skips updateCalculations (the only place that clears) whenever an error is
active. -/
theorem stale_result_on_validation_error :
    hasErrors (debouncedFieldUpdate demoState .couponRate (-5)).1.errors = true ∧
    (debouncedFieldUpdate demoState .couponRate (-5)).1.bondCalculations
        = some (calculateBondMetrics demoParams) ∧
    (debouncedFieldUpdate demoState .couponRate (-5)).1.bondCalculations ≠ none := by
  have hv : validateField InputField.couponRate (-5)
      = some "Coupon rate must be at least 0" := by
    norm_num [validateField]
  have hd : debouncedFieldUpdate demoState InputField.couponRate (-5)
      = ({ demoState with
            couponRate := -5,
            errors := { couponRate := some "Coupon rate must be at least 0" } },
          [{ demoState with
            couponRate := -5,
            errors := { couponRate := some "Coupon rate must be at least 0" } }]) := by
    simp [debouncedFieldUpdate, hv, setError, fieldUpdateState, hasErrors, demoState]
  rw [hd]
  exact ⟨rfl, rfl, by simp [demoState]⟩

/-- C8 counterexample: after the valid edit couponRate := 100, the first
state snapshot handed to subscribers has the updated input but no active
errors and a bondCalculations that is NOT the recomputation for those
inputs — a subscriber observes an inconsistent (stale) state, because the
pipeline notifies once for the field/errors update and only afterwards for
the recompute. -/
theorem subscriber_observes_stale_calculations :
    (debouncedFieldUpdate demoState .couponRate 100).2[0]?
        = some { demoState with couponRate := 100 } ∧
    hasErrors { demoState with couponRate := 100 }.errors = false ∧
    { demoState with couponRate := 100 }.bondCalculations
        ≠ some (calculateBondMetrics
            (stateParams { demoState with couponRate := 100 })) := by
  have hv : validateField InputField.couponRate 100 = none := by
    norm_num [validateField]
  refine ⟨?_, by simp [demoState, hasErrors], ?_⟩
  · simp [debouncedFieldUpdate, hv, setError, fieldUpdateState, hasErrors,
      updateCalculations, demoState]
  · show some (calculateBondMetrics demoParams)
        ≠ some (calculateBondMetrics (⟨100, 100, 0, 1, 1⟩ : BondParameters))
    intro h
    exact demo_metrics_ne (Option.some.inj h).symm

/-- C8 amended: each single setState call is an atomic merge-then-notify
step — every listener is called, in registration order, with the same fully
merged state — but the input pipeline issues two separate setState calls per
edit, so across the two notifications a subscriber does observe an
intermediate state whose inputs are updated while bondCalculations is still
the previous result (here: couponRate already 100 while the stored result
is still the one computed for couponRate 0). -/
theorem setState_merge_then_notify :
    (∀ (α : Type) (s : CalcState) (u : StateUpdate)
        (listeners : List (CalcState → α)),
      (setState s u listeners).1 = mergeState s u ∧
      (setState s u listeners).2
          = listeners.map (fun fn => fn (mergeState s u))) ∧
    ((debouncedFieldUpdate demoState .couponRate 100).2.map
        (fun st => (st.couponRate, st.bondCalculations)))
      = [(100, some (calculateBondMetrics demoParams)),
          (100, some (calculateBondMetrics (⟨100, 100, 0, 1, 1⟩ : BondParameters)))] ∧
    calculateBondMetrics (⟨100, 100, 0, 1, 1⟩ : BondParameters)
        ≠ calculateBondMetrics demoParams := by
  refine ⟨fun α s u listeners => ⟨rfl, rfl⟩, ?_, demo_metrics_ne⟩
  have hv : validateField InputField.couponRate 100 = none := by
    norm_num [validateField]
  simp [debouncedFieldUpdate, hv, setError, fieldUpdateState, hasErrors,
    updateCalculations, stateParams, demoState]

end Bond
